import Mathlib

/-!
Shallow embedding of the mcp-dev-journal repository: the Entry 0 summary
merge, the shared pagination schema, the web API error wrapper, and the
MCP HTTP server's journal endpoints, together with theorems settling the
specification claims about them.
-/

namespace DevJournal

/-! ### JavaScript numeric primitives

Models of the JS coercions the handlers rely on, restricted to the
integer-literal strings the routes receive: Number(s) as used by
z.coerce.number (empty/whitespace strings coerce to 0, otherwise an
optionally signed digit string; anything else is NaN, i.e. none), and
parseInt(s) (skip leading whitespace, optional sign, longest digit
prefix; NaN when no digit is found). -/

def digitsToNat (cs : List Char) : Nat :=
  cs.foldl (fun acc c => acc * 10 + (c.toNat - 48)) 0

def isWs (c : Char) : Bool :=
  c = ' ' || c = '\t' || c = '\n' || c = '\r'

/-- JS Number(s) on the integer-literal fragment: none models NaN. -/
def jsNumber? (s : String) : Option Int :=
  let cs := (s.toList.dropWhile isWs).reverse.dropWhile isWs |>.reverse
  match cs with
  | [] => some 0
  | '-' :: rest =>
      if rest ≠ [] ∧ rest.all Char.isDigit then some (-(digitsToNat rest : Int)) else none
  | '+' :: rest =>
      if rest ≠ [] ∧ rest.all Char.isDigit then some (digitsToNat rest : Int) else none
  | _ =>
      if cs.all Char.isDigit then some (digitsToNat cs : Int) else none

/-- JS parseInt(s): leading whitespace skipped, optional sign, longest
digit prefix; none models NaN. -/
def jsParseInt? (s : String) : Option Int :=
  let cs := s.toList.dropWhile isWs
  match cs with
  | '-' :: rest =>
      let ds := rest.takeWhile Char.isDigit
      if ds = [] then none else some (-(digitsToNat ds : Int))
  | '+' :: rest =>
      let ds := rest.takeWhile Char.isDigit
      if ds = [] then none else some (digitsToNat ds : Int)
  | _ =>
      let ds := cs.takeWhile Char.isDigit
      if ds = [] then none else some (digitsToNat ds : Int)

/-- JS x || d on a number that may be NaN (none): NaN and 0 are falsy. -/
def jsOrDefault (x : Option Int) (d : Int) : Int :=
  match x with
  | some v => if v = 0 then d else v
  | none => d

/-- JS truthiness of a value that is either undefined or a string:
undefined and the empty string are falsy. -/
def jsTruthy : Option String → Bool
  | none => false
  | some s => !s.isEmpty

/-! ### Error model (web/lib/errors.ts and web/lib/api-handler.ts)

A thrown value is either an AppError (name, message, statusCode, code,
optional details, as built by the AppError subclasses) or any other
value, of which only the extractable message matters. -/

structure ErrorDetails where
  entries : List (String × List String)
deriving Repr, DecidableEq

inductive Thrown where
  | appError (name : String) (message : String) (statusCode : Int)
      (code : Option String) (details : Option ErrorDetails)
  | other (message : String)
deriving Repr, DecidableEq

/-- ValidationError(message, details): an AppError with status 400 and
code VALIDATION_ERROR (web/lib/errors.ts). -/
def validationError (message : String) (details : Option ErrorDetails) : Thrown :=
  .appError "ValidationError" message 400 (some "VALIDATION_ERROR") details

/-- NotFoundError(resource): an AppError with status 404 and code
NOT_FOUND (web/lib/errors.ts); the identifier-free message form. -/
def notFoundError (resource : String) : Thrown :=
  .appError "NotFoundError" (resource ++ " not found") 404 (some "NOT_FOUND") none

/-- ConflictError(message): status 409, code CONFLICT. -/
def conflictError (message : String) : Thrown :=
  .appError "ConflictError" message 409 (some "CONFLICT") none

/-- The JSON body produced for an error response. -/
structure ErrorBody where
  error : String
  code : Option String
  statusCode : Option Int
  details : Option ErrorDetails
  message : Option String
deriving Repr, DecidableEq

/-- AppError.toJSON / ValidationError.toJSON (web/lib/errors.ts). -/
def thrownToJSON : Thrown → ErrorBody
  | .appError name msg sc code details =>
      if name = "ValidationError" then
        ⟨msg, code, some sc, some (details.getD ⟨[]⟩), none⟩
      else ⟨msg, code, some sc, none, none⟩
  | .other m => ⟨m, none, none, none, none⟩

/-- getErrorMessage (web/lib/errors.ts): both branches carry a message
in this model. -/
def getErrorMessage : Thrown → String
  | .appError _ m _ _ _ => m
  | .other m => m

/-- A JSON response: HTTP status plus a body. -/
inductive Response (α : Type) where
  | json (status : Int) (body : α)
deriving Repr, DecidableEq

def Response.status : Response α → Int
  | .json s _ => s

/-- withErrorHandler (web/lib/api-handler.ts): the wrapped handler either
returns a response or throws; every thrown value is converted to a JSON
error response. isDev models process.env.NODE_ENV === "development". -/
def withErrorHandler (isDev : Bool) (result : Except Thrown (Response α)) :
    Response (α ⊕ ErrorBody) :=
  match result with
  | .ok (.json s b) => .json s (.inl b)
  | .error e =>
      match e with
      | .appError name msg sc code details =>
          .json sc (.inr (thrownToJSON (.appError name msg sc code details)))
      | .other m =>
          .json 500 (.inr ⟨"Internal server error", some "INTERNAL_ERROR", none, none,
            if isDev then some (getErrorMessage (.other m)) else none⟩)

/-! ### Entry 0 (Living Project Summary) merge
(src/modules/journal/ai/normalize-report.ts, mergeSummaryUpdates) -/

/-- The structured output of normalizeReport: every section nullable. -/
structure SummaryUpdate where
  summary : Option String
  purpose : Option String
  architecture : Option String
  key_decisions : Option String
  technologies : Option String
  status : Option String
  file_structure : Option String
  tech_stack : Option String
  frontend : Option String
  backend : Option String
  database_info : Option String
  services : Option String
  custom_tooling : Option String
  data_flow : Option String
  patterns : Option String
  commands : Option String
  extended_notes : Option String
deriving Repr, DecidableEq

/-- The stored project summary record (Entry 0); sections optional. -/
structure ProjectSummary where
  repository : String
  summary : Option String
  purpose : Option String
  architecture : Option String
  key_decisions : Option String
  technologies : Option String
  status : Option String
  file_structure : Option String
  tech_stack : Option String
  frontend : Option String
  backend : Option String
  database_info : Option String
  services : Option String
  custom_tooling : Option String
  data_flow : Option String
  patterns : Option String
  commands : Option String
  extended_notes : Option String
deriving Repr, DecidableEq

/-- A partial project summary value: none means the key is absent. -/
structure SummaryPatch where
  summary : Option String
  purpose : Option String
  architecture : Option String
  key_decisions : Option String
  technologies : Option String
  status : Option String
  file_structure : Option String
  tech_stack : Option String
  frontend : Option String
  backend : Option String
  database_info : Option String
  services : Option String
  custom_tooling : Option String
  data_flow : Option String
  patterns : Option String
  commands : Option String
  extended_notes : Option String
deriving Repr, DecidableEq

def SummaryPatch.empty : SummaryPatch :=
  ⟨none, none, none, none, none, none, none, none, none,
   none, none, none, none, none, none, none, none⟩

/-- One conditional assignment of mergeSummaryUpdates: starting from the
absent field of the empty object, assign the update value when it is
non-null. -/
def mergeField : Option String → Option String
  | some v => some v
  | none => SummaryPatch.empty.summary

/-- mergeSummaryUpdates(existing, updates): starts from an empty object
and assigns each field from updates when it is non-null; each field of
the result is its own conditional assignment. -/
def mergeSummaryUpdates (existing : Option ProjectSummary) (updates : SummaryUpdate) :
    SummaryPatch :=
  let _ := existing
  { summary := mergeField updates.summary
    purpose := mergeField updates.purpose
    architecture := mergeField updates.architecture
    key_decisions := mergeField updates.key_decisions
    technologies := mergeField updates.technologies
    status := mergeField updates.status
    file_structure := mergeField updates.file_structure
    tech_stack := mergeField updates.tech_stack
    frontend := mergeField updates.frontend
    backend := mergeField updates.backend
    database_info := mergeField updates.database_info
    services := mergeField updates.services
    custom_tooling := mergeField updates.custom_tooling
    data_flow := mergeField updates.data_flow
    patterns := mergeField updates.patterns
    commands := mergeField updates.commands
    extended_notes := mergeField updates.extended_notes }

/-! ### Journal data model and SQL helpers -/

/-- A row of journal_entries (columns used by the handlers under
consideration; raw_agent_report is NOT NULL in the schema). -/
structure JournalEntry where
  commit_hash : String
  repository : String
  branch : String
  author : String
  date : String
  why : String
  what_changed : String
  decisions : String
  technologies : String
  kronus_wisdom : Option String
  raw_agent_report : String
  created_at : String
deriving Repr, DecidableEq

/-- A row of entry_attachments (the column the entries route reads). -/
structure AttachmentRow where
  commit_hash : String
  filename : String
deriving Repr, DecidableEq

/-- Stable insertion of x into a list ordered by the boolean
comparison le. -/
def insertSorted (le : α → α → Bool) (x : α) : List α → List α
  | [] => [x]
  | y :: ys => if le x y then x :: y :: ys else y :: insertSorted le x ys

/-- Deterministic model of the SQL ORDER BY clause as an insertion
sort with comparison le. -/
def sortByLe (le : α → α → Bool) : List α → List α
  | [] => []
  | x :: xs => insertSorted le x (sortByLe le xs)

/-- Code-point-wise lexicographic comparison, the SQLite BINARY text
collation. -/
def charListLe : List Char → List Char → Bool
  | [], _ => true
  | _ :: _, [] => false
  | a :: as, b :: bs =>
      if a.toNat < b.toNat then true
      else if b.toNat < a.toNat then false
      else charListLe as bs

def strLe (a b : String) : Bool := charListLe a.toList b.toList

/-- ORDER BY date DESC. -/
def byDateDesc (a b : JournalEntry) : Bool :=
  strLe b.date a.date

/-- ORDER BY created_at DESC. -/
def byCreatedAtDesc (a b : JournalEntry) : Bool :=
  strLe b.created_at a.created_at

/-- ORDER BY repository (ascending). -/
def byRepositoryAsc (a b : ProjectSummary) : Bool :=
  strLe a.repository b.repository

/-- SQLite LIMIT ? OFFSET ? over an ordered result list: a negative
offset behaves as 0 and a negative limit disables the limit clause. -/
def sqlitePage (limit offset : Int) (xs : List α) : List α :=
  let dropped := xs.drop offset.toNat
  if limit < 0 then dropped else dropped.take limit.toNat

/-! ### MCP HTTP server (mcp-server/http-server.js)

The journal read endpoints with their query parsing, the Math.min(limit,
50) cap, the raw_agent_report scrubbing and the has_more computation. -/

/-- The query parameters each handler reads from the request URL. -/
structure RawQuery where
  limit : Option String
  offset : Option String
  include_raw_report : Option String
deriving Repr, DecidableEq

/-- parseQuery(reqUrl): parseInt(limit) || 20, parseInt(offset) || 0,
include_raw_report === the string true. -/
structure ParsedQuery where
  limit : Int
  offset : Int
  include_raw_report : Bool
deriving Repr, DecidableEq

def parseQuery (q : RawQuery) : ParsedQuery :=
  { limit := jsOrDefault (q.limit.bind jsParseInt?) 20
    offset := jsOrDefault (q.offset.bind jsParseInt?) 0
    include_raw_report := q.include_raw_report = some "true" }

/-- A journal entry as serialized in a response: raw_agent_report is
optional because the handlers delete it unless requested. -/
structure EntryView where
  commit_hash : String
  repository : String
  branch : String
  author : String
  date : String
  why : String
  what_changed : String
  decisions : String
  technologies : String
  kronus_wisdom : Option String
  raw_agent_report : Option String
  created_at : String
deriving Repr, DecidableEq

/-- Serialize an entry, keeping or deleting raw_agent_report. -/
def entryView (includeRaw : Bool) (e : JournalEntry) : EntryView :=
  { commit_hash := e.commit_hash, repository := e.repository, branch := e.branch
    author := e.author, date := e.date, why := e.why
    what_changed := e.what_changed, decisions := e.decisions
    technologies := e.technologies, kronus_wisdom := e.kronus_wisdom
    raw_agent_report := if includeRaw then some e.raw_agent_report else none
    created_at := e.created_at }

/-- getEntryByCommit: exact match on commit_hash first, then the LIKE
hash% prefix match (standalone server, src/mcp-server). -/
def getEntryByCommit (db : List JournalEntry) (hash : String) : Option JournalEntry :=
  match db.find? (fun e => e.commit_hash = hash) with
  | some e => some e
  | none => db.find? (fun e => e.commit_hash.startsWith hash)

/-- Response of GET /api/journal/entries/:hash. -/
def mcpGetEntryResponse (db : List JournalEntry) (hash : String) (q : RawQuery) :
    Response (EntryView ⊕ String) :=
  let pq := parseQuery q
  match getEntryByCommit db hash with
  | none => .json 404 (.inr ("No entry found for commit " ++ hash))
  | some e => .json 200 (.inl (entryView pq.include_raw_report e))

/-- getEntriesByRepositoryPaginated: SELECT ... WHERE repository = ?
ORDER BY date DESC LIMIT ? OFFSET ?, plus the total count. -/
def getEntriesByRepositoryPaginated (db : List JournalEntry) (repository : String)
    (limit offset : Int) : List JournalEntry × Nat :=
  let matching := db.filter (fun e => e.repository = repository)
  (sqlitePage limit offset (sortByLe byDateDesc matching), matching.length)

/-- getEntriesByBranchPaginated: WHERE repository = ? AND branch = ?. -/
def getEntriesByBranchPaginated (db : List JournalEntry) (repository branch : String)
    (limit offset : Int) : List JournalEntry × Nat :=
  let matching := db.filter (fun e => e.repository = repository ∧ e.branch = branch)
  (sqlitePage limit offset (sortByLe byDateDesc matching), matching.length)

/-- The JSON body of the list-entries endpoints. -/
structure McpListBody where
  repository : String
  branch : Option String
  entries : List EntryView
  total : Nat
  limit : Int
  offset : Int
  has_more : Bool
deriving Repr, DecidableEq

/-- GET /api/journal/repositories/:repo/entries. -/
def mcpListByRepoResponse (db : List JournalEntry) (repository : String) (q : RawQuery) :
    Response McpListBody :=
  let pq := parseQuery q
  let (entries, total) :=
    getEntriesByRepositoryPaginated db repository (min pq.limit 50) pq.offset
  let views := entries.map (entryView pq.include_raw_report)
  .json 200
    { repository := repository, branch := none, entries := views, total := total
      limit := pq.limit, offset := pq.offset
      has_more := decide (pq.offset + (entries.length : Int) < (total : Int)) }

/-- GET /api/journal/repositories/:repo/branches/:branch/entries. -/
def mcpListByBranchResponse (db : List JournalEntry) (repository branch : String)
    (q : RawQuery) : Response McpListBody :=
  let pq := parseQuery q
  let (entries, total) :=
    getEntriesByBranchPaginated db repository branch (min pq.limit 50) pq.offset
  let views := entries.map (entryView pq.include_raw_report)
  .json 200
    { repository := repository, branch := some branch, entries := views, total := total
      limit := pq.limit, offset := pq.offset
      has_more := decide (pq.offset + (entries.length : Int) < (total : Int)) }

/-- listAllProjectSummariesPaginated: SELECT * FROM project_summaries
ORDER BY repository LIMIT ? OFFSET ?, plus the total count. -/
def listAllProjectSummariesPaginated (db : List ProjectSummary) (limit offset : Int) :
    List ProjectSummary × Nat :=
  (sqlitePage limit offset (sortByLe byRepositoryAsc db),
   db.length)

/-- The JSON body of GET /api/journal/summaries. -/
structure McpSummariesBody where
  summaries : List ProjectSummary
  total : Nat
  limit : Int
  offset : Int
  has_more : Bool
deriving Repr, DecidableEq

/-- GET /api/journal/summaries. -/
def mcpListSummariesResponse (db : List ProjectSummary) (q : RawQuery) :
    Response McpSummariesBody :=
  let pq := parseQuery q
  let (summaries, total) := listAllProjectSummariesPaginated db (min pq.limit 50) pq.offset
  .json 200
    { summaries := summaries, total := total, limit := pq.limit, offset := pq.offset
      has_more := decide (pq.offset + (summaries.length : Int) < (total : Int)) }

/-! ### Shared Zod pagination schema and validateQuery
(web/lib/validations/schemas.ts, web/lib/validations/validate.ts) -/

structure PaginationParams where
  limit : Int
  offset : Int
deriving Repr, DecidableEq

/-- One parsed field of the pagination schema: when the parameter is
absent the default applies; otherwise z.coerce.number runs Number() and
the min/max checks follow. Returns the field issues, empty on success. -/
def zodCoercedNumberField (input : Option String) (dflt : Int)
    (lo : Option Int) (hi : Option Int) : Int × List String :=
  match input with
  | none => (dflt, [])
  | some s =>
      match jsNumber? s with
      | none => (0, ["Expected number, received nan"])
      | some n =>
          let issues :=
            (match lo with
             | some l => if n < l then ["Number must be greater than or equal to " ++ toString l] else []
             | none => []) ++
            (match hi with
             | some h => if h < n then ["Number must be less than or equal to " ++ toString h] else []
             | none => [])
          (n, issues)

/-- paginationSchema.parse on the limit and offset query parameters:
limit coerced with min 1, max 100, default 50; offset coerced with
min 0, default 0. Throws a ZodError listing the issues on failure. -/
def paginationSchemaParse (limitQ offsetQ : Option String) :
    Except (List String) PaginationParams :=
  let lz := zodCoercedNumberField limitQ 50 (some 1) (some 100)
  let oz := zodCoercedNumberField offsetQ 0 (some 0) none
  if lz.2 ++ oz.2 = [] then .ok ⟨lz.1, oz.1⟩ else .error (lz.2 ++ oz.2)

/-- requireQuery(paginationSchema, request): a ZodError is wrapped into
a ValidationError("Invalid query parameters", details) and thrown. -/
def requireQueryPagination (limitQ offsetQ : Option String) :
    Except Thrown PaginationParams :=
  match paginationSchemaParse limitQ offsetQ with
  | .ok p => .ok p
  | .error issues =>
      .error (validationError "Invalid query parameters" (some ⟨[("issues", issues)]⟩))

/-! ### GET /api/entries (web/app/api/entries/route.ts)

Filter by optional repository/branch, ORDER BY created_at DESC,
LIMIT/OFFSET from the validated pagination params, attachment counts,
total count and the has_more flag. -/

def entriesRouteMatches (repoF branchF : Option String) (e : JournalEntry) : Bool :=
  (match repoF with | some r => e.repository = r | none => true) &&
  (match branchF with | some b => e.branch = b | none => true)

/-- The filtered collection the route pages over. -/
def entriesRouteFiltered (db : List JournalEntry) (repoF branchF : Option String) :
    List JournalEntry :=
  sortByLe byCreatedAtDesc (db.filter (entriesRouteMatches repoF branchF))

/-- The page of rows the select with limit/offset returns. -/
def entriesRoutePage (db : List JournalEntry) (repoF branchF : Option String)
    (limit offset : Nat) : List JournalEntry :=
  ((entriesRouteFiltered db repoF branchF).drop offset).take limit

/-- An entry as mapped into the route's response, with attachment_count. -/
structure WebEntryView where
  entry : EntryView
  attachment_count : Nat
deriving Repr, DecidableEq

structure WebEntriesBody where
  entries : List WebEntryView
  total : Nat
  limit : Nat
  offset : Nat
  has_more : Bool
deriving Repr, DecidableEq

/-- The successful response of GET /api/entries (this route serializes
raw_agent_report, so the view keeps it). -/
def entriesRouteResponse (db : List JournalEntry) (attachments : List AttachmentRow)
    (repoF branchF : Option String) (limit offset : Nat) : Response WebEntriesBody :=
  let filtered := entriesRouteFiltered db repoF branchF
  let page := entriesRoutePage db repoF branchF limit offset
  let views := page.map fun e =>
    { entry := entryView true e
      attachment_count := (attachments.filter (fun a => a.commit_hash = e.commit_hash)).length }
  .json 200
    { entries := views, total := filtered.length, limit := limit, offset := offset
      has_more := decide (offset + page.length < filtered.length) }

/-! ### POST /api/journal/entries (mcp-server/http-server.js)

Required-field check, duplicate-commit check, AI generation, insert. -/

structure CreateEntryBody where
  commit_hash : Option String
  repository : Option String
  branch : Option String
  author : Option String
  date : Option String
  raw_agent_report : Option String
deriving Repr, DecidableEq

/-- The AI output of generateJournalEntry. -/
structure AiEntryOutput where
  why : String
  what_changed : String
  decisions : String
  technologies : String
  kronus_wisdom : Option String
deriving Repr, DecidableEq

/-- Modelled from the spec: commitHasEntry lives in the journal database
module, which is outside src; the database doc (Journal Database
Structure) states a unique constraint on commit_hash, one entry per
commit, so the check is existence of an entry with that commit hash. -/
def commitHasEntry (db : List JournalEntry) (hash : String) : Bool :=
  db.any (fun e => e.commit_hash = hash)

/-- Modelled from the spec: insertJournalEntry (journal database module,
outside src) inserts the new row and returns its id; the id of an
appended row is the new row count. -/
def insertJournalEntry (db : List JournalEntry) (e : JournalEntry) :
    List JournalEntry × Nat :=
  (db ++ [e], db.length + 1)

/-- What a call to POST /api/journal/entries produces: the response, the
database afterwards, and how many AI generation calls were made. -/
structure CreateEntryOutcome where
  status : Int
  success : Option Bool
  error : Option String
  db : List JournalEntry
  aiCalls : Nat
deriving Repr, DecidableEq

/-- The POST /api/journal/entries handler. gen is the generateJournalEntry
oracle (it may throw); created_at is the DB column default. -/
def mcpCreateEntry (db : List JournalEntry) (body : CreateEntryBody)
    (gen : Except String AiEntryOutput) (created_at : String) : CreateEntryOutcome :=
  if ¬(jsTruthy body.commit_hash ∧ jsTruthy body.repository ∧ jsTruthy body.branch ∧
       jsTruthy body.author ∧ jsTruthy body.date ∧ jsTruthy body.raw_agent_report) then
    { status := 400, success := none
      error := some "Missing required fields: commit_hash, repository, branch, author, date, raw_agent_report"
      db := db, aiCalls := 0 }
  else if commitHasEntry db (body.commit_hash.getD "") then
    { status := 409, success := some false
      error := some ("Entry already exists for commit " ++ body.commit_hash.getD "")
      db := db, aiCalls := 0 }
  else
    match gen with
    | .error m => { status := 500, success := none, error := some m, db := db, aiCalls := 1 }
    | .ok ai =>
        let entry : JournalEntry :=
          { commit_hash := body.commit_hash.getD "", repository := body.repository.getD ""
            branch := body.branch.getD "", author := body.author.getD ""
            date := body.date.getD "", why := ai.why, what_changed := ai.what_changed
            decisions := ai.decisions, technologies := ai.technologies
            kronus_wisdom := ai.kronus_wisdom
            raw_agent_report := body.raw_agent_report.getD "", created_at := created_at }
        let (db2, _) := insertJournalEntry db entry
        { status := 201, success := some true, error := none, db := db2, aiCalls := 1 }

/-! ### Prepared statements and their bound parameters -/

/-- A value bound to a prepared-statement placeholder. -/
inductive SqlValue where
  | s (v : String)
  | i (v : Int)
  | null
deriving Repr, DecidableEq

/-- JS v || null for an optional string: undefined and the empty string
become NULL. -/
def sqlOptString : Option String → SqlValue
  | none => .null
  | some v => if v.isEmpty then .null else .s v

/-- Body of PATCH /api/entries/[commitHash] (updateJournalEntrySchema):
four optional string fields and one nullable optional field. The outer
Option is presence in the JSON body (undefined when absent). -/
structure UpdateEntryBody where
  why : Option String
  what_changed : Option String
  decisions : Option String
  technologies : Option String
  kronus_wisdom : Option (Option String)
deriving Repr, DecidableEq

/-- The fields/values accumulation of the PATCH handler: each defined
field pushes a fixed set-fragment and its bound value. -/
def updateEntryFieldsValues (u : UpdateEntryBody) : List String × List SqlValue :=
  let fv : List String × List SqlValue := ([], [])
  let fv := match u.why with
    | some v => (fv.1 ++ ["why = ?"], fv.2 ++ [.s v]) | none => fv
  let fv := match u.what_changed with
    | some v => (fv.1 ++ ["what_changed = ?"], fv.2 ++ [.s v]) | none => fv
  let fv := match u.decisions with
    | some v => (fv.1 ++ ["decisions = ?"], fv.2 ++ [.s v]) | none => fv
  let fv := match u.technologies with
    | some v => (fv.1 ++ ["technologies = ?"], fv.2 ++ [.s v]) | none => fv
  let fv := match u.kronus_wisdom with
    | some v => (fv.1 ++ ["kronus_wisdom = ?"],
                 fv.2 ++ [match v with | some w => .s w | none => .null])
    | none => fv
  fv

/-- The SQL text the PATCH handler prepares. -/
def updateEntrySqlText (u : UpdateEntryBody) : String :=
  "UPDATE journal_entries SET " ++ String.intercalate ", " (updateEntryFieldsValues u).1 ++
    " WHERE commit_hash = ?"

/-- The bound parameters of the PATCH statement (the commit hash is
appended after the set values). -/
def updateEntryParams (u : UpdateEntryBody) (commitHash : String) : List SqlValue :=
  (updateEntryFieldsValues u).2 ++ [.s commitHash]

/-- Body of POST /api/cv/skills after createSkillSchema validation. -/
structure CreateSkillBody where
  id : String
  name : String
  category : String
  magnitude : Int
  description : String
  icon : Option String
  color : Option String
  url : Option String
  tags : List String
  firstUsed : Option String
  lastUsed : Option String
deriving Repr, DecidableEq

/-- JSON.stringify of a string array (escaping-free fragment: the tags
are data bound as one parameter, never SQL text). -/
def jsonStringifyStrings (tags : List String) : String :=
  "[" ++ String.intercalate "," (tags.map (fun t => "\x22" ++ t ++ "\x22")) ++ "]"

/-- The INSERT statement of POST /api/cv/skills: fixed SQL text and the
eleven bound parameters. -/
def insertSkillStatement (b : CreateSkillBody) : String × List SqlValue :=
  ("INSERT INTO skills (id, name, category, magnitude, description, icon, color, url, tags, firstUsed, lastUsed) VALUES (?, ?, ?, ?, ?, ?, ?, ?, ?, ?, ?)",
   [.s b.id, .s b.name, .s b.category, .i b.magnitude, .s b.description,
    sqlOptString b.icon, sqlOptString b.color, sqlOptString b.url,
    .s (jsonStringifyStrings b.tags), sqlOptString b.firstUsed, sqlOptString b.lastUsed])

/-- The attachments-by-repository GET query (same route file): fixed SQL
text, the repository bound as the single parameter. -/
def attachmentsByRepoStatement (repository : String) : String × List SqlValue :=
  ("SELECT ea.id, ea.commit_hash, ea.filename, ea.mime_type, ea.description, ea.file_size as size, ea.uploaded_at as created_at, je.repository, je.branch FROM entry_attachments ea JOIN journal_entries je ON ea.commit_hash = je.commit_hash WHERE je.repository = ? ORDER BY ea.uploaded_at DESC",
   [.s repository])

/-- The type filter of GET /api/attachments, after validation by the
z.enum([image, mermaid]).optional() query schema. -/
inductive AttachmentTypeFilter where
  | image
  | mermaid
deriving Repr, DecidableEq

/-- The GET /api/attachments statement: the base SELECT gets a WHERE
clause appended according to the validated type enum (image filters on
mime_type, mermaid on filename), then the ORDER BY; the prepared
statement is run with no bound parameters. -/
def attachmentsListStatement (type : Option AttachmentTypeFilter) : String × List SqlValue :=
  let query := "SELECT id, commit_hash, filename, mime_type, description, file_size as size, uploaded_at as created_at FROM entry_attachments"
  let query :=
    match type with
    | some .image => query ++ " WHERE mime_type LIKE 'image/%'"
    | some .mermaid => query ++ " WHERE filename LIKE '%.mmd' OR filename LIKE '%.mermaid'"
    | none => query
  (query ++ " ORDER BY uploaded_at DESC", [])

/-! ### PATCH /api/entries/[commitHash] (web entries route)

Update, 404 on zero changes, then a single try-caught triggerBackup. -/

/-- Apply the UPDATE's set clause to one row. -/
def applyEntryUpdate (u : UpdateEntryBody) (e : JournalEntry) : JournalEntry :=
  { e with
    why := u.why.getD e.why
    what_changed := u.what_changed.getD e.what_changed
    decisions := u.decisions.getD e.decisions
    technologies := u.technologies.getD e.technologies
    kronus_wisdom := match u.kronus_wisdom with | some v => v | none => e.kronus_wisdom }

inductive PatchResult where
  | ok (entry : JournalEntry)
  | thrown (e : Thrown)
  | jsonUndefined
deriving Repr, DecidableEq

structure PatchOutcome where
  result : PatchResult
  db : List JournalEntry
  backupCalls : Nat
deriving Repr, DecidableEq

/-- The PATCH /api/entries/[commitHash] handler body (before the
withErrorHandler wrapper). backupThrows tells whether the triggerBackup
attempt raises; the handler swallows that failure. -/
def patchEntryHandler (db : List JournalEntry) (commitHash : String)
    (u : UpdateEntryBody) (backupThrows : Bool) : PatchOutcome :=
  let fields := (updateEntryFieldsValues u).1
  if fields = [] then
    { result := .thrown (validationError "No fields to update" none), db := db, backupCalls := 0 }
  else
    let changes := (db.filter (fun e => e.commit_hash = commitHash)).length
    let db2 := db.map (fun e => if e.commit_hash = commitHash then applyEntryUpdate u e else e)
    if changes = 0 then
      { result := .thrown (notFoundError "Entry"), db := db2, backupCalls := 0 }
    else
      let _ := backupThrows
      match db2.find? (fun e => e.commit_hash = commitHash) with
      | some e => { result := .ok e, db := db2, backupCalls := 1 }
      | none => { result := .jsonUndefined, db := db2, backupCalls := 1 }

/-! ### AI-backed routes: call counts
(POST /api/atropos/memory/edit and normalizeReport) -/

structure MemoryEntry where
  content : String
  tags : List String
  createdAt : String
deriving Repr, DecidableEq

structure AtroposMemory where
  customDictionary : List String
  memories : List MemoryEntry
  totalChecks : Nat
  totalCorrections : Nat
deriving Repr, DecidableEq

inductive MemoryAction where
  | add_memory
  | edit_memory
  | remove_memory
  | add_word
  | remove_word
  | no_change
deriving Repr, DecidableEq

/-- The structured response generateObject returns for a memory edit. -/
structure MemoryEditResponse where
  action : MemoryAction
  memoryContent : Option String
  memoryTags : Option (List String)
  targetMemoryIndex : Option Nat
  word : Option String
  explanation : String
deriving Repr, DecidableEq

/-- The switch over response.action: list edits with the most-recent
index convention. now is the createdAt timestamp for a new memory. -/
def applyMemoryAction (memory : AtroposMemory) (r : MemoryEditResponse) (now : String) :
    List String × List MemoryEntry :=
  let customDictionary := memory.customDictionary
  let memories := memory.memories
  match r.action with
  | .add_memory =>
      match r.memoryContent with
      | some c => (customDictionary, memories ++ [⟨c, r.memoryTags.getD [], now⟩])
      | none => (customDictionary, memories)
  | .edit_memory =>
      match r.targetMemoryIndex, r.memoryContent with
      | some idx, some c =>
          if idx + 1 ≤ memories.length then
            let actual := memories.length - 1 - idx
            (customDictionary,
             memories.mapIdx (fun i m =>
               if i = actual then { m with content := c, tags := r.memoryTags.getD m.tags } else m))
          else (customDictionary, memories)
      | _, _ => (customDictionary, memories)
  | .remove_memory =>
      match r.targetMemoryIndex with
      | some idx =>
          if idx + 1 ≤ memories.length then
            let actual := memories.length - 1 - idx
            (customDictionary, memories.eraseIdx actual)
          else (customDictionary, memories)
      | none => (customDictionary, memories)
  | .add_word =>
      match r.word with
      | some w => if customDictionary.contains w then (customDictionary, memories)
                  else (customDictionary ++ [w], memories)
      | none => (customDictionary, memories)
  | .remove_word =>
      match r.word with
      | some w => (customDictionary.erase w, memories)
      | none => (customDictionary, memories)
  | .no_change => (customDictionary, memories)

structure AtroposOutcome where
  status : Int
  aiCalls : Nat
  dictionary : List String
  memories : List MemoryEntry
deriving Repr, DecidableEq

/-- POST /api/atropos/memory/edit: reject when userMessage is falsy or
not a string (none models an absent or non-string value, and the empty
string is falsy), require the API key, call generateObject once, apply
the action, save and respond. ai is the generateObject oracle (it may
throw, caught as a 500). -/
def atroposMemoryEdit (userMessage : Option String) (apiKeyConfigured : Bool)
    (memory : AtroposMemory) (ai : Except String MemoryEditResponse) (now : String) :
    AtroposOutcome :=
  if ¬jsTruthy userMessage then
      { status := 400, aiCalls := 0, dictionary := memory.customDictionary
        memories := memory.memories }
  else
      if ¬apiKeyConfigured then
        { status := 500, aiCalls := 0, dictionary := memory.customDictionary
          memories := memory.memories }
      else
        match ai with
        | .error _ =>
            { status := 500, aiCalls := 1, dictionary := memory.customDictionary
              memories := memory.memories }
        | .ok r =>
            let dm := applyMemoryAction memory r now
            { status := 200, aiCalls := 1, dictionary := dm.1, memories := dm.2 }

/-- normalizeReport (src/modules/journal/ai/normalize-report.ts): builds
the prompt from the soul file, the existing summary and the recent
entries (abstracted into the oracle's input here), performs one
generateText call, and wraps a failure. Returns the result together with
the number of generation calls made. -/
def normalizeReport (rawReport : String) (existingSummary : Option ProjectSummary)
    (recentEntries : List JournalEntry) (gen : Except String SummaryUpdate) :
    Except String SummaryUpdate × Nat :=
  let _ := rawReport
  let _ := existingSummary
  let _ := recentEntries
  match gen with
  | .ok u => (.ok u, 1)
  | .error m => (.error ("Entry 0 normalization failed: " ++ m), 1)

/-! ### Accessors, the raw-report-erasing map, and sample inputs -/

def Response.bodyOf : Response α → α
  | .json _ b => b

/-- Erase the raw_agent_report column, keeping every other column: two
database states are related by the raw-report non-interference relation
exactly when their images under this map agree. -/
def clearRaw (e : JournalEntry) : JournalEntry :=
  { e with raw_agent_report := "" }

/-- The limit as the claim about the MCP list endpoints reads it:
the parsed number itself, 20 only when the parameter is absent or not
parseable as a number. -/
def specLimitC4 (q : Option String) : Int :=
  match q.bind jsParseInt? with
  | some v => v
  | none => 20

/-- Sample journal entry (commit abc1234, repository r, branch b). -/
def sampleEntryA : JournalEntry :=
  { commit_hash := "abc1234", repository := "r", branch := "b", author := "a"
    date := "2024-01-02", why := "w", what_changed := "c", decisions := "d"
    technologies := "t", kronus_wisdom := none, raw_agent_report := "RAW-A"
    created_at := "2024-01-02" }

/-- Sample journal entry (commit def5678, repository r, branch b). -/
def sampleEntryB : JournalEntry :=
  { commit_hash := "def5678", repository := "r", branch := "b", author := "a"
    date := "2024-01-01", why := "w", what_changed := "c", decisions := "d"
    technologies := "t", kronus_wisdom := none, raw_agent_report := "RAW-B"
    created_at := "2024-01-01" }

/-- sampleEntryA with a different stored raw agent report. -/
def sampleEntryAOtherRaw : JournalEntry :=
  { sampleEntryA with raw_agent_report := "RAW-OTHER" }

/-- Sample existing Entry 0 with a non-empty summary section. -/
def sampleSummaryOld : ProjectSummary :=
  { repository := "r", summary := some "old summary", purpose := none
    architecture := none, key_decisions := none, technologies := none
    status := none, file_structure := none, tech_stack := none, frontend := none
    backend := none, database_info := none, services := none
    custom_tooling := none, data_flow := none, patterns := none
    commands := none, extended_notes := none }

/-- A normalization output whose sections are all null. -/
def sampleUpdateAllNull : SummaryUpdate :=
  ⟨none, none, none, none, none, none, none, none, none,
   none, none, none, none, none, none, none, none⟩

/-- Create-entry body with a duplicate commit hash but a missing date. -/
def sampleBodyMissingDate : CreateEntryBody :=
  { commit_hash := some "abc1234", repository := some "r", branch := some "b"
    author := some "a", date := none, raw_agent_report := some "report text" }

/-- Create-entry body with all six required fields present. -/
def sampleBodyComplete : CreateEntryBody :=
  { commit_hash := some "abc1234", repository := some "r", branch := some "b"
    author := some "a", date := some "2024-01-02", raw_agent_report := some "report text" }

/-- A sample AI generation result. -/
def sampleAiOutput : AiEntryOutput :=
  { why := "w", what_changed := "c", decisions := "d", technologies := "t"
    kronus_wisdom := none }

/-- A sample Atropos memory state. -/
def sampleMemory : AtroposMemory :=
  { customDictionary := ["Kronus"], memories := [⟨"prefers short words", [], "2024-01-01"⟩]
    totalChecks := 3, totalCorrections := 1 }

/-- A sample structured memory-edit response. -/
def sampleEditResponse : MemoryEditResponse :=
  { action := .no_change, memoryContent := none, memoryTags := none
    targetMemoryIndex := none, word := none, explanation := "nothing to do" }

/-! ## Theorems -/

theorem length_insertSorted (le : α → α → Bool) (x : α) (l : List α) :
    (insertSorted le x l).length = l.length + 1 := by
  induction l with
  | nil => rfl
  | cons y ys ih =>
      unfold insertSorted
      split
      · simp
      · simp [ih]

theorem length_sortByLe (le : α → α → Bool) (l : List α) :
    (sortByLe le l).length = l.length := by
  induction l with
  | nil => rfl
  | cons x xs ih => simp [sortByLe, length_insertSorted, ih]

theorem insertSorted_map (le : α → α → Bool) (le2 : β → β → Bool) (f : β → α)
    (hle : ∀ a b, le (f a) (f b) = le2 a b) (x : β) (l : List β) :
    insertSorted le (f x) (l.map f) = (insertSorted le2 x l).map f := by
  induction l with
  | nil => rfl
  | cons y ys ih =>
      simp only [List.map_cons]
      unfold insertSorted
      rw [hle]
      split
      · simp
      · simp [ih]

theorem sortByLe_map (le : α → α → Bool) (le2 : β → β → Bool) (f : β → α)
    (hle : ∀ a b, le (f a) (f b) = le2 a b) (l : List β) :
    sortByLe le (l.map f) = (sortByLe le2 l).map f := by
  induction l with
  | nil => rfl
  | cons x xs ih =>
      simp only [List.map_cons]
      unfold sortByLe
      rw [ih, insertSorted_map le le2 f hle]

theorem sqlitePage_length_le (xs : List α) (l o : Int) (h : 0 ≤ l) :
    ((sqlitePage (min l 50) o xs).length : Int) ≤ min l 50 := by
  unfold sqlitePage
  rw [if_neg (by omega : ¬(min l 50 < 0))]
  simp only [List.length_take]
  have h2 : ((min l 50).toNat : Int) = min l 50 := Int.toNat_of_nonneg (by omega)
  omega

theorem hasMore_false_iff_drop_nil (xs : List α) (limit offset : Int) (h : 0 ≤ offset) :
    (decide (offset + ((sqlitePage limit offset xs).length : Int) < (xs.length : Int)) = false)
      ↔ xs.drop (offset.toNat + (sqlitePage limit offset xs).length) = [] := by
  rw [List.drop_eq_nil_iff, decide_eq_false_iff_not, not_lt]
  have ht : (offset.toNat : Int) = offset := Int.toNat_of_nonneg h
  omega

theorem hasMore_false_iff_page_eq (xs : List α) (limit offset : Nat) :
    (decide (offset + ((xs.drop offset).take limit).length < xs.length) = false)
      ↔ (xs.drop offset).take limit = xs.drop offset := by
  rw [decide_eq_false_iff_not, not_lt, List.take_eq_self_iff, List.length_drop,
    List.length_take, List.length_drop]
  omega

theorem mergeField_eq (o : Option String) : mergeField o = o := by
  cases o <;> rfl

/-- C1 counterexample: with an existing record whose summary section is
set and an update whose sections are all null, the merge result's
summary field is not the existing record's value (it is absent), so the
merge does not keep the existing record's values. -/
theorem mergeSummaryUpdates_keeps_existing_false :
    (mergeSummaryUpdates (some sampleSummaryOld) sampleUpdateAllNull).summary ≠
      sampleSummaryOld.summary := by
  decide

/-- C1 (amended): the Entry 0 merge result carries exactly the update's
fields: each field equals the update's value when that value is non-null
and is absent otherwise; the existing record is not consulted, so no
field of the result is taken from it. -/
theorem mergeSummaryUpdates_eq_update_fields (existing : Option ProjectSummary)
    (updates : SummaryUpdate) :
    mergeSummaryUpdates existing updates =
      ⟨updates.summary, updates.purpose, updates.architecture, updates.key_decisions,
       updates.technologies, updates.status, updates.file_structure, updates.tech_stack,
       updates.frontend, updates.backend, updates.database_info, updates.services,
       updates.custom_tooling, updates.data_flow, updates.patterns, updates.commands,
       updates.extended_notes⟩ := by
  simp [mergeSummaryUpdates, mergeField_eq]

/-- C5: withErrorHandler converts every outcome of the wrapped handler
into a response and lets no exception escape: a normal response passes
through, an AppError yields its own statusCode with its toJSON body, a
ValidationError therefore yields status 400 with code VALIDATION_ERROR,
and any other thrown value yields status 500 with code INTERNAL_ERROR. -/
theorem withErrorHandler_C5 (α : Type) :
    (∀ (isDev : Bool) (s : Int) (b : α),
        withErrorHandler isDev (Except.ok (Response.json s b)) = Response.json s (Sum.inl b))
    ∧ (∀ (isDev : Bool) (name msg : String) (sc : Int) (code : Option String)
          (details : Option ErrorDetails),
        withErrorHandler (α := α) isDev (.error (.appError name msg sc code details)) =
          .json sc (.inr (thrownToJSON (.appError name msg sc code details))))
    ∧ (∀ (isDev : Bool) (m : String),
        withErrorHandler (α := α) isDev (.error (.other m)) =
          .json 500 (.inr ⟨"Internal server error", some "INTERNAL_ERROR", none, none,
            if isDev then some m else none⟩))
    ∧ (∀ (isDev : Bool) (msg : String) (details : Option ErrorDetails),
        withErrorHandler (α := α) isDev (.error (validationError msg details)) =
          .json 400 (.inr ⟨msg, some "VALIDATION_ERROR", some 400,
            some (details.getD ⟨[]⟩), none⟩)) := by
  refine ⟨fun _ _ _ => rfl, fun _ _ _ _ _ _ => rfl, fun _ _ => rfl, fun isDev msg details => ?_⟩
  simp [withErrorHandler, validationError, thrownToJSON, getErrorMessage]

/-- C3: the shared Zod pagination schema through requireQuery: absent
parameters yield the defaults limit 50 and offset 0; numeric strings are
coerced to their numeric value; and any input whose limit is below 1 or
above 100, or whose offset is negative, is rejected with a
ValidationError (which carries HTTP status 400). -/
theorem paginationSchema_C3 :
    (requireQueryPagination none none = .ok ⟨50, 0⟩)
    ∧ (∀ (s : String) (n : Int), jsNumber? s = some n → 1 ≤ n → n ≤ 100 →
        requireQueryPagination (some s) none = .ok ⟨n, 0⟩)
    ∧ (∀ (s : String) (n : Int), jsNumber? s = some n → 0 ≤ n →
        requireQueryPagination none (some s) = .ok ⟨50, n⟩)
    ∧ (∀ (s : String) (n : Int) (offsetQ : Option String), jsNumber? s = some n →
        (n < 1 ∨ 100 < n) →
        ∃ d, requireQueryPagination (some s) offsetQ =
          .error (validationError "Invalid query parameters" (some d)))
    ∧ (∀ (s : String) (n : Int) (limitQ : Option String), jsNumber? s = some n →
        n < 0 →
        ∃ d, requireQueryPagination limitQ (some s) =
          .error (validationError "Invalid query parameters" (some d))) := by
  refine ⟨rfl, ?_, ?_, ?_, ?_⟩
  · intro s n h h1 h2
    simp [requireQueryPagination, paginationSchemaParse, zodCoercedNumberField, h,
      show ¬(n < 1) by omega, show ¬(100 < n) by omega]
  · intro s n h h0
    simp [requireQueryPagination, paginationSchemaParse, zodCoercedNumberField, h,
      show ¬(n < 0) by omega]
  · intro s n offsetQ h hbad
    have hl2 : (zodCoercedNumberField (some s) 50 (some 1) (some 100)).2 ≠ [] := by
      rcases hbad with hb | hb
      · simp [zodCoercedNumberField, h, hb]
      · simp [zodCoercedNumberField, h, hb, show ¬(n < 1) by omega]
    refine ⟨⟨[("issues", (zodCoercedNumberField (some s) 50 (some 1) (some 100)).2 ++
      (zodCoercedNumberField offsetQ 0 (some 0) none).2)]⟩, ?_⟩
    have hc : ¬((zodCoercedNumberField (some s) 50 (some 1) (some 100)).2 ++
        (zodCoercedNumberField offsetQ 0 (some 0) none).2 = []) := by
      intro hcon
      exact hl2 (List.append_eq_nil.mp hcon).1
    simp only [requireQueryPagination, paginationSchemaParse]
    rw [if_neg hc]
  · intro s n limitQ h hneg
    have ho2 : (zodCoercedNumberField (some s) 0 (some 0) none).2 ≠ [] := by
      simp [zodCoercedNumberField, h, hneg]
    refine ⟨⟨[("issues", (zodCoercedNumberField limitQ 50 (some 1) (some 100)).2 ++
      (zodCoercedNumberField (some s) 0 (some 0) none).2)]⟩, ?_⟩
    have hc : ¬((zodCoercedNumberField limitQ 50 (some 1) (some 100)).2 ++
        (zodCoercedNumberField (some s) 0 (some 0) none).2 = []) := by
      intro hcon
      exact ho2 (List.append_eq_nil.mp hcon).2
    simp only [requireQueryPagination, paginationSchemaParse]
    rw [if_neg hc]

/-- C3 witness: a numeric limit string coerces, and the limit 0 input is
rejected with a ValidationError. -/
theorem paginationSchema_C3_witness :
    requireQueryPagination (some "7") none = .ok ⟨7, 0⟩
    ∧ (∃ d, requireQueryPagination (some "0") none =
        .error (validationError "Invalid query parameters" (some d))) :=
  ⟨paginationSchema_C3.2.1 "7" 7 (by decide) (by decide) (by decide),
   paginationSchema_C3.2.2.2.1 "0" 0 none (by decide) (Or.inl (by decide))⟩

/-- C2 counterexample: on the MCP repository-entries endpoint, a request
with offset -3 against a repository with two entries returns both
entries — the page reaches the end of the filtered collection — yet
has_more is true (-3 + 2 < 2), so has_more = false does not hold exactly
when the page reaches the end. -/
theorem has_more_end_iff_false_C2 :
    ¬ (((mcpListByRepoResponse [sampleEntryA, sampleEntryB] "r"
          ⟨none, some "-3", none⟩).bodyOf.has_more = false) ↔
        ((sortByLe byDateDesc (([sampleEntryA, sampleEntryB]).filter
            (fun e => e.repository = "r"))).drop
          ((-3 : Int).toNat +
            (mcpListByRepoResponse [sampleEntryA, sampleEntryB] "r"
              ⟨none, some "-3", none⟩).bodyOf.entries.length) = [])) := by
  decide

/-- C2 (amended): for every paginated list response, has_more is true
exactly when offset plus the number of returned items is strictly below
the total matching count; and has_more = false coincides with the page
reaching the end of the filtered collection for the web route (whose
offset is validated nonnegative) and for the MCP list endpoints whenever
the parsed offset is nonnegative — a negative offset on the MCP
endpoints can leave has_more true after the final item. -/
theorem has_more_C2 :
    (∀ (db : List JournalEntry) (att : List AttachmentRow) (repoF branchF : Option String)
        (limit offset : Nat),
      ((entriesRouteResponse db att repoF branchF limit offset).bodyOf.has_more = true ↔
        offset + (entriesRouteResponse db att repoF branchF limit offset).bodyOf.entries.length <
          (entriesRouteResponse db att repoF branchF limit offset).bodyOf.total))
    ∧ (∀ (db : List JournalEntry) (att : List AttachmentRow) (repoF branchF : Option String)
        (limit offset : Nat),
      ((entriesRouteResponse db att repoF branchF limit offset).bodyOf.has_more = false ↔
        entriesRoutePage db repoF branchF limit offset =
          (entriesRouteFiltered db repoF branchF).drop offset))
    ∧ (∀ (db : List JournalEntry) (repo : String) (q : RawQuery),
      ((mcpListByRepoResponse db repo q).bodyOf.has_more = true ↔
        (parseQuery q).offset + ((mcpListByRepoResponse db repo q).bodyOf.entries.length : Int) <
          ((mcpListByRepoResponse db repo q).bodyOf.total : Int)))
    ∧ (∀ (db : List JournalEntry) (repo : String) (q : RawQuery),
        0 ≤ (parseQuery q).offset →
      ((mcpListByRepoResponse db repo q).bodyOf.has_more = false ↔
        (sortByLe byDateDesc (db.filter (fun e => e.repository = repo))).drop
          ((parseQuery q).offset.toNat +
            (mcpListByRepoResponse db repo q).bodyOf.entries.length) = []))
    ∧ (∀ (db : List JournalEntry) (repo branch : String) (q : RawQuery),
      ((mcpListByBranchResponse db repo branch q).bodyOf.has_more = true ↔
        (parseQuery q).offset +
            ((mcpListByBranchResponse db repo branch q).bodyOf.entries.length : Int) <
          ((mcpListByBranchResponse db repo branch q).bodyOf.total : Int)))
    ∧ (∀ (db : List JournalEntry) (repo branch : String) (q : RawQuery),
        0 ≤ (parseQuery q).offset →
      ((mcpListByBranchResponse db repo branch q).bodyOf.has_more = false ↔
        (sortByLe byDateDesc (db.filter
            (fun e => e.repository = repo ∧ e.branch = branch))).drop
          ((parseQuery q).offset.toNat +
            (mcpListByBranchResponse db repo branch q).bodyOf.entries.length) = []))
    ∧ (∀ (db : List ProjectSummary) (q : RawQuery),
      ((mcpListSummariesResponse db q).bodyOf.has_more = true ↔
        (parseQuery q).offset + ((mcpListSummariesResponse db q).bodyOf.summaries.length : Int) <
          ((mcpListSummariesResponse db q).bodyOf.total : Int)))
    ∧ (∀ (db : List ProjectSummary) (q : RawQuery),
        0 ≤ (parseQuery q).offset →
      ((mcpListSummariesResponse db q).bodyOf.has_more = false ↔
        (sortByLe byRepositoryAsc db).drop
          ((parseQuery q).offset.toNat +
            (mcpListSummariesResponse db q).bodyOf.summaries.length) = [])) := by
  refine ⟨?_, ?_, ?_, ?_, ?_, ?_, ?_, ?_⟩
  · intro db att repoF branchF limit offset
    simp [entriesRouteResponse, entriesRoutePage, Response.bodyOf, decide_eq_true_iff]
  · intro db att repoF branchF limit offset
    have := hasMore_false_iff_page_eq (entriesRouteFiltered db repoF branchF) limit offset
    simpa [entriesRouteResponse, entriesRoutePage, Response.bodyOf] using this
  · intro db repo q
    simp [mcpListByRepoResponse, getEntriesByRepositoryPaginated, Response.bodyOf,
      length_sortByLe, decide_eq_true_iff]
  · intro db repo q h
    have := hasMore_false_iff_drop_nil
      (sortByLe byDateDesc (db.filter (fun e => e.repository = repo)))
      (min (parseQuery q).limit 50) (parseQuery q).offset h
    simpa [mcpListByRepoResponse, getEntriesByRepositoryPaginated, Response.bodyOf,
      length_sortByLe] using this
  · intro db repo branch q
    simp [mcpListByBranchResponse, getEntriesByBranchPaginated, Response.bodyOf,
      length_sortByLe, decide_eq_true_iff]
  · intro db repo branch q h
    have := hasMore_false_iff_drop_nil
      (sortByLe byDateDesc (db.filter (fun e => e.repository = repo ∧ e.branch = branch)))
      (min (parseQuery q).limit 50) (parseQuery q).offset h
    simpa [mcpListByBranchResponse, getEntriesByBranchPaginated, Response.bodyOf,
      length_sortByLe] using this
  · intro db q
    simp [mcpListSummariesResponse, listAllProjectSummariesPaginated, Response.bodyOf,
      length_sortByLe, decide_eq_true_iff]
  · intro db q h
    have := hasMore_false_iff_drop_nil
      (sortByLe byRepositoryAsc db)
      (min (parseQuery q).limit 50) (parseQuery q).offset h
    simpa [mcpListSummariesResponse, listAllProjectSummariesPaginated, Response.bodyOf,
      length_sortByLe] using this

/-- C2 witness: with the default query on a one-entry repository the MCP
endpoint's has_more is false exactly when the page reaches the end. -/
theorem has_more_C2_witness :
    (mcpListByRepoResponse [sampleEntryA] "r" ⟨none, none, none⟩).bodyOf.has_more = false ↔
      (sortByLe byDateDesc (([sampleEntryA]).filter (fun e => e.repository = "r"))).drop
        ((parseQuery ⟨none, none, none⟩).offset.toNat +
          (mcpListByRepoResponse [sampleEntryA] "r" ⟨none, none, none⟩).bodyOf.entries.length)
        = [] :=
  has_more_C2.2.2.2.1 [sampleEntryA] "r" ⟨none, none, none⟩ (by decide)

/-- C4 counterexample: a limit parameter of "0" is parseable as a
number, so the claim's limit is 0 and its bound is min(0, 50) = 0 rows;
but parseInt(limit) || 20 treats 0 as falsy, the handler queries with
LIMIT 20, and one row comes back. -/
theorem mcp_row_bound_false_C4 :
    ¬ (((mcpListByRepoResponse [sampleEntryA] "r"
          ⟨some "0", none, none⟩).bodyOf.entries.length : Int) ≤
        min (specLimitC4 (some "0")) 50) := by
  decide

/-- C4 (amended): for the MCP list endpoints, the effective limit is
parseInt of the limit parameter, defaulting to 20 when the parameter is
absent, not parseable as a number, or parses to 0 (JS falsiness), and
the effective offset defaults to 0 when absent or not parseable; when
the effective limit is nonnegative, at most min(limit, 50) rows are
returned. -/
theorem mcp_row_bound_C4 :
    (∀ q : RawQuery, (q.limit.bind jsParseInt? = none ∨ q.limit.bind jsParseInt? = some 0) →
        (parseQuery q).limit = 20)
    ∧ (∀ q : RawQuery, q.offset.bind jsParseInt? = none → (parseQuery q).offset = 0)
    ∧ (∀ (db : List JournalEntry) (repo : String) (q : RawQuery),
        0 ≤ (parseQuery q).limit →
        ((mcpListByRepoResponse db repo q).bodyOf.entries.length : Int) ≤
          min ((parseQuery q).limit) 50)
    ∧ (∀ (db : List JournalEntry) (repo branch : String) (q : RawQuery),
        0 ≤ (parseQuery q).limit →
        ((mcpListByBranchResponse db repo branch q).bodyOf.entries.length : Int) ≤
          min ((parseQuery q).limit) 50)
    ∧ (∀ (db : List ProjectSummary) (q : RawQuery),
        0 ≤ (parseQuery q).limit →
        ((mcpListSummariesResponse db q).bodyOf.summaries.length : Int) ≤
          min ((parseQuery q).limit) 50) := by
  refine ⟨?_, ?_, ?_, ?_, ?_⟩
  · intro q h
    rcases h with h | h <;> simp [parseQuery, jsOrDefault, h]
  · intro q h
    simp [parseQuery, jsOrDefault, h]
  · intro db repo q h
    have := sqlitePage_length_le
      (sortByLe byDateDesc (db.filter (fun e => e.repository = repo)))
      (parseQuery q).limit (parseQuery q).offset h
    simpa [mcpListByRepoResponse, getEntriesByRepositoryPaginated, Response.bodyOf] using this
  · intro db repo branch q h
    have := sqlitePage_length_le
      (sortByLe byDateDesc (db.filter (fun e => e.repository = repo ∧ e.branch = branch)))
      (parseQuery q).limit (parseQuery q).offset h
    simpa [mcpListByBranchResponse, getEntriesByBranchPaginated, Response.bodyOf] using this
  · intro db q h
    have := sqlitePage_length_le (sortByLe byRepositoryAsc db)
      (parseQuery q).limit (parseQuery q).offset h
    simpa [mcpListSummariesResponse, listAllProjectSummariesPaginated, Response.bodyOf] using this

/-- C4 witness: a request with limit 1 against a two-entry repository
gets at most min(1, 50) = 1 row. -/
theorem mcp_row_bound_C4_witness :
    ((mcpListByRepoResponse [sampleEntryA, sampleEntryB] "r"
        ⟨some "1", none, none⟩).bodyOf.entries.length : Int) ≤
      min ((parseQuery ⟨some "1", none, none⟩).limit) 50 :=
  mcp_row_bound_C4.2.2.1 [sampleEntryA, sampleEntryB] "r" ⟨some "1", none, none⟩ (by decide)

/-- C6 counterexample: a POST body whose commit hash already has an
entry but whose date field is missing hits the required-fields check
first and gets status 400, not 409. -/
theorem mcp_create_duplicate_409_false_C6 :
    commitHasEntry [sampleEntryA] "abc1234" = true
    ∧ (mcpCreateEntry [sampleEntryA] sampleBodyMissingDate
        (.ok sampleAiOutput) "t").status ≠ 409 := by
  decide

/-- C6 (amended): for every POST /api/journal/entries request carrying
all six required fields (non-empty) whose commit hash already has a
journal entry, the server responds 409 with success false, the database
is unchanged, no AI generation is performed and no row is inserted. -/
theorem mcp_create_duplicate_C6 (db : List JournalEntry) (body : CreateEntryBody)
    (gen : Except String AiEntryOutput) (created : String)
    (h1 : jsTruthy body.commit_hash = true) (h2 : jsTruthy body.repository = true)
    (h3 : jsTruthy body.branch = true) (h4 : jsTruthy body.author = true)
    (h5 : jsTruthy body.date = true) (h6 : jsTruthy body.raw_agent_report = true)
    (hdup : commitHasEntry db (body.commit_hash.getD "") = true) :
    mcpCreateEntry db body gen created =
      { status := 409, success := some false
        error := some ("Entry already exists for commit " ++ body.commit_hash.getD "")
        db := db, aiCalls := 0 } := by
  simp [mcpCreateEntry, h1, h2, h3, h4, h5, h6, hdup]

/-- C6 witness: a complete duplicate-commit body gets the 409 outcome
with the database untouched and zero AI calls. -/
theorem mcp_create_duplicate_C6_witness :
    mcpCreateEntry [sampleEntryA] sampleBodyComplete (.ok sampleAiOutput) "t" =
      { status := 409, success := some false
        error := some ("Entry already exists for commit " ++
          sampleBodyComplete.commit_hash.getD "")
        db := [sampleEntryA], aiCalls := 0 } :=
  mcp_create_duplicate_C6 [sampleEntryA] sampleBodyComplete (.ok sampleAiOutput) "t"
    (by decide) (by decide) (by decide) (by decide) (by decide) (by decide) (by decide)

theorem updateEntryFields_shape (u : UpdateEntryBody) :
    (updateEntryFieldsValues u).1 =
      (if u.why.isSome then ["why = ?"] else [])
      ++ (if u.what_changed.isSome then ["what_changed = ?"] else [])
      ++ (if u.decisions.isSome then ["decisions = ?"] else [])
      ++ (if u.technologies.isSome then ["technologies = ?"] else [])
      ++ (if u.kronus_wisdom.isSome then ["kronus_wisdom = ?"] else []) := by
  rcases u with ⟨w, c, d, t, k⟩
  cases w <;> cases c <;> cases d <;> cases t <;> cases k <;> rfl

/-- C7 counterexample: two PATCH /api/entries/[commitHash] request
bodies that differ only in the user-supplied update values produce
different SQL texts — the set clause is assembled from whichever fields
the user sent — so the SQL text is not independent of user-supplied
request values. -/
theorem patch_sql_text_differs_C7 :
    updateEntrySqlText ⟨some "a", none, none, none, none⟩ ≠
      updateEntrySqlText ⟨none, some "a", none, none, none⟩ := by
  decide

/-- C7 (amended): user-supplied free-form values reach the database only
as bound parameters and never enter the SQL text, though the text may
vary with the request's shape: two PATCH bodies with the same
field-presence pattern yield identical SQL text; the GET /api/attachments
text is chosen by the validated type enum from three fixed texts and the
statement binds no parameters; and the skills INSERT and
attachments-by-repository SELECT have fixed SQL text for every request. -/
theorem sql_text_value_independent_C7 :
    (∀ u1 u2 : UpdateEntryBody,
        u1.why.isSome = u2.why.isSome →
        u1.what_changed.isSome = u2.what_changed.isSome →
        u1.decisions.isSome = u2.decisions.isSome →
        u1.technologies.isSome = u2.technologies.isSome →
        u1.kronus_wisdom.isSome = u2.kronus_wisdom.isSome →
        updateEntrySqlText u1 = updateEntrySqlText u2)
    ∧ (∀ t : Option AttachmentTypeFilter,
        (attachmentsListStatement t).2 = []
        ∧ ((attachmentsListStatement t).1 = (attachmentsListStatement none).1
          ∨ (attachmentsListStatement t).1 = (attachmentsListStatement (some .image)).1
          ∨ (attachmentsListStatement t).1 = (attachmentsListStatement (some .mermaid)).1))
    ∧ (∀ b1 b2 : CreateSkillBody, (insertSkillStatement b1).1 = (insertSkillStatement b2).1)
    ∧ (∀ r1 r2 : String,
        (attachmentsByRepoStatement r1).1 = (attachmentsByRepoStatement r2).1) := by
  refine ⟨?_, ?_, fun _ _ => rfl, fun _ _ => rfl⟩
  · intro u1 u2 h1 h2 h3 h4 h5
    unfold updateEntrySqlText
    rw [updateEntryFields_shape, updateEntryFields_shape, h1, h2, h3, h4, h5]
  · intro t
    match t with
    | none => exact ⟨rfl, Or.inl rfl⟩
    | some .image => exact ⟨rfl, Or.inr (Or.inl rfl)⟩
    | some .mermaid => exact ⟨rfl, Or.inr (Or.inr rfl)⟩

/-- C7 witness: two bodies with the same present fields but different
values produce the same SQL text. -/
theorem sql_text_value_independent_C7_witness :
    updateEntrySqlText ⟨some "first value", none, none, none, some none⟩ =
      updateEntrySqlText ⟨some "second value", none, none, none, some (some "w")⟩ :=
  sql_text_value_independent_C7.1
    ⟨some "first value", none, none, none, some none⟩
    ⟨some "second value", none, none, none, some (some "w")⟩
    (by decide) (by decide) (by decide) (by decide) (by decide)

/-- C8: for every PATCH /api/entries/[commitHash] request that
successfully updates an entry (some field to set, a matching row), the
backup is attempted exactly once with no retry, and the outcome is the
same whether or not the backup attempt throws: the handler still returns
the updated entry as a success response. -/
theorem patch_backup_once_C8 (db : List JournalEntry) (commitHash : String)
    (u : UpdateEntryBody)
    (hf : (updateEntryFieldsValues u).1 ≠ [])
    (hc : db.any (fun e => e.commit_hash = commitHash) = true) :
    ((patchEntryHandler db commitHash u true).backupCalls = 1
      ∧ (patchEntryHandler db commitHash u false).backupCalls = 1)
    ∧ patchEntryHandler db commitHash u true = patchEntryHandler db commitHash u false
    ∧ ∃ e, (patchEntryHandler db commitHash u true).result = .ok e := by
  have hEq : patchEntryHandler db commitHash u true = patchEntryHandler db commitHash u false :=
    rfl
  obtain ⟨x, hx, hpx⟩ := List.any_eq_true.mp hc
  have hchanges : (db.filter (fun e => decide (e.commit_hash = commitHash))).length ≠ 0 := by
    have hmem : x ∈ db.filter (fun e => decide (e.commit_hash = commitHash)) :=
      List.mem_filter.mpr ⟨hx, hpx⟩
    have hlen := List.length_pos.mpr (List.ne_nil_of_mem hmem)
    omega
  have hfind : ∃ e,
      ((db.map (fun e => if e.commit_hash = commitHash then applyEntryUpdate u e else e)).find?
        (fun e => decide (e.commit_hash = commitHash))) = some e := by
    have hx2 : (if x.commit_hash = commitHash then applyEntryUpdate u x else x) ∈
        db.map (fun e => if e.commit_hash = commitHash then applyEntryUpdate u e else e) :=
      List.mem_map_of_mem _ hx
    have hxeq : x.commit_hash = commitHash := of_decide_eq_true hpx
    have hpx2 : decide
        ((if x.commit_hash = commitHash then applyEntryUpdate u x else x).commit_hash
          = commitHash) = true := by
      rw [if_pos hxeq]
      exact decide_eq_true hxeq
    have hsome : ((db.map
        (fun e => if e.commit_hash = commitHash then applyEntryUpdate u e else e)).find?
          (fun e => decide (e.commit_hash = commitHash))).isSome :=
      List.find?_isSome.mpr ⟨_, hx2, hpx2⟩
    exact Option.isSome_iff_exists.mp hsome
  obtain ⟨e, he⟩ := hfind
  refine ⟨⟨?_, ?_⟩, hEq, ⟨e, ?_⟩⟩ <;>
    simp [patchEntryHandler, hf, hchanges, he]

/-- C8 witness: updating the why field of an existing entry triggers one
backup attempt, and a throwing backup leaves the outcome unchanged. -/
theorem patch_backup_once_C8_witness :
    ((patchEntryHandler [sampleEntryA] "abc1234" ⟨some "new why", none, none, none, none⟩
        true).backupCalls = 1
      ∧ (patchEntryHandler [sampleEntryA] "abc1234" ⟨some "new why", none, none, none, none⟩
        false).backupCalls = 1)
    ∧ patchEntryHandler [sampleEntryA] "abc1234" ⟨some "new why", none, none, none, none⟩ true
      = patchEntryHandler [sampleEntryA] "abc1234" ⟨some "new why", none, none, none, none⟩ false
    ∧ ∃ e, (patchEntryHandler [sampleEntryA] "abc1234"
        ⟨some "new why", none, none, none, none⟩ true).result = .ok e :=
  patch_backup_once_C8 [sampleEntryA] "abc1234" ⟨some "new why", none, none, none, none⟩
    (by decide) (by decide)

/-- C9 counterexample: a memory-edit request without a userMessage is
answered (status 400) with zero model-generation calls, so not every
request handled by an AI-backed route performs exactly one SDK call. -/
theorem ai_exactly_one_call_false_C9 :
    (atroposMemoryEdit none true sampleMemory (.ok sampleEditResponse) "t").status = 400
    ∧ (atroposMemoryEdit none true sampleMemory (.ok sampleEditResponse) "t").aiCalls ≠ 1 := by
  decide

/-- C9 (amended): every request to the AI-backed memory-edit route
performs at most one model-generation call; a request whose userMessage
is falsy (absent, non-string or empty) is answered with zero calls; as
soon as the request passes validation (a truthy userMessage with the API
key configured) exactly one call is performed; and normalizeReport
performs exactly one generation call per invocation. -/
theorem ai_call_count_C9 :
    (∀ (um : Option String) (key : Bool) (mem : AtroposMemory)
        (ai : Except String MemoryEditResponse) (now : String),
      (atroposMemoryEdit um key mem ai now).aiCalls ≤ 1)
    ∧ (∀ (um : Option String) (key : Bool) (mem : AtroposMemory)
        (ai : Except String MemoryEditResponse) (now : String),
      jsTruthy um = false →
      (atroposMemoryEdit um key mem ai now).status = 400
        ∧ (atroposMemoryEdit um key mem ai now).aiCalls = 0)
    ∧ (∀ (um : Option String) (mem : AtroposMemory) (ai : Except String MemoryEditResponse)
        (now : String),
      jsTruthy um = true →
      (atroposMemoryEdit um true mem ai now).aiCalls = 1)
    ∧ (∀ (raw : String) (ex : Option ProjectSummary) (entries : List JournalEntry)
        (gen : Except String SummaryUpdate),
      (normalizeReport raw ex entries gen).2 = 1) := by
  refine ⟨?_, ?_, ?_, ?_⟩
  · intro um key mem ai now
    unfold atroposMemoryEdit
    split
    · simp
    · split
      · simp
      · cases ai <;> simp
  · intro um key mem ai now h
    simp [atroposMemoryEdit, h]
  · intro um mem ai now h
    cases ai <;> simp [atroposMemoryEdit, h]
  · intro raw ex entries gen
    cases gen <;> rfl

/-- C9 witness: the truthy message "remember this" with the key
configured yields exactly one model call, and the empty-string message
is rejected with zero calls. -/
theorem ai_call_count_C9_witness :
    (atroposMemoryEdit (some "remember this") true sampleMemory
        (.ok sampleEditResponse) "t").aiCalls = 1
    ∧ ((atroposMemoryEdit (some "") true sampleMemory
        (.ok sampleEditResponse) "t").status = 400
      ∧ (atroposMemoryEdit (some "") true sampleMemory
        (.ok sampleEditResponse) "t").aiCalls = 0) :=
  ⟨ai_call_count_C9.2.2.1 (some "remember this") sampleMemory (.ok sampleEditResponse) "t"
      (by decide),
   ai_call_count_C9.2.1 (some "") true sampleMemory (.ok sampleEditResponse) "t" (by decide)⟩

theorem filter_clearRaw_repo (db : List JournalEntry) (repo : String) :
    (db.map clearRaw).filter (fun e => decide (e.repository = repo)) =
      (db.filter (fun e => decide (e.repository = repo))).map clearRaw := by
  rw [List.filter_map]
  rfl

theorem filter_clearRaw_branch (db : List JournalEntry) (repo branch : String) :
    (db.map clearRaw).filter (fun e => decide (e.repository = repo ∧ e.branch = branch)) =
      (db.filter (fun e => decide (e.repository = repo ∧ e.branch = branch))).map clearRaw := by
  rw [List.filter_map]
  rfl

theorem sortByLe_clearRaw (l : List JournalEntry) :
    sortByLe byDateDesc (l.map clearRaw) = (sortByLe byDateDesc l).map clearRaw :=
  sortByLe_map byDateDesc byDateDesc clearRaw (fun _ _ => rfl) l

theorem sqlitePage_map (f : α → β) (lim off : Int) (xs : List α) :
    sqlitePage lim off (xs.map f) = (sqlitePage lim off xs).map f := by
  unfold sqlitePage
  split <;> simp

theorem entryView_comp_clearRaw :
    entryView false ∘ clearRaw = entryView false :=
  funext fun _ => rfl

theorem getEntryByCommit_clearRaw (db : List JournalEntry) (hash : String) :
    getEntryByCommit (db.map clearRaw) hash = (getEntryByCommit db hash).map clearRaw := by
  unfold getEntryByCommit
  rw [List.find?_map, List.find?_map]
  have hc1 : ((fun e : JournalEntry => decide (e.commit_hash = hash)) ∘ clearRaw) =
      (fun e : JournalEntry => decide (e.commit_hash = hash)) := rfl
  have hc2 : ((fun e : JournalEntry => e.commit_hash.startsWith hash) ∘ clearRaw) =
      (fun e : JournalEntry => e.commit_hash.startsWith hash) := rfl
  rw [hc1, hc2]
  cases db.find? (fun e => decide (e.commit_hash = hash)) <;> rfl

theorem parseQuery_raw_false (q : RawQuery) (h : q.include_raw_report ≠ some "true") :
    (parseQuery q).include_raw_report = false := by
  simp [parseQuery, h]

theorem mcpGetEntry_clearRaw (db : List JournalEntry) (hash : String) (q : RawQuery)
    (h : q.include_raw_report ≠ some "true") :
    mcpGetEntryResponse (db.map clearRaw) hash q = mcpGetEntryResponse db hash q := by
  simp only [mcpGetEntryResponse, getEntryByCommit_clearRaw, parseQuery_raw_false q h]
  cases getEntryByCommit db hash <;> rfl

theorem mcpListByRepo_clearRaw (db : List JournalEntry) (repo : String) (q : RawQuery)
    (h : q.include_raw_report ≠ some "true") :
    mcpListByRepoResponse (db.map clearRaw) repo q = mcpListByRepoResponse db repo q := by
  simp only [mcpListByRepoResponse, getEntriesByRepositoryPaginated,
    parseQuery_raw_false q h, filter_clearRaw_repo, sortByLe_clearRaw, sqlitePage_map,
    List.length_map, List.map_map, entryView_comp_clearRaw]

theorem mcpListByBranch_clearRaw (db : List JournalEntry) (repo branch : String)
    (q : RawQuery) (h : q.include_raw_report ≠ some "true") :
    mcpListByBranchResponse (db.map clearRaw) repo branch q =
      mcpListByBranchResponse db repo branch q := by
  simp only [mcpListByBranchResponse, getEntriesByBranchPaginated,
    parseQuery_raw_false q h, filter_clearRaw_branch, sortByLe_clearRaw, sqlitePage_map,
    List.length_map, List.map_map, entryView_comp_clearRaw]

/-- C10: when include_raw_report is not the string true, the MCP entry
and entry-list responses contain no raw_agent_report value, and they are
independent of the stored raw agent reports: two database states that
agree after erasing raw_agent_report produce identical responses. -/
theorem raw_report_noninterference_C10 :
    (∀ (db : List JournalEntry) (hash : String) (q : RawQuery),
        q.include_raw_report ≠ some "true" →
        ∀ v : EntryView, mcpGetEntryResponse db hash q = .json 200 (.inl v) →
          v.raw_agent_report = none)
    ∧ (∀ (db : List JournalEntry) (repo : String) (q : RawQuery),
        q.include_raw_report ≠ some "true" →
        ∀ v ∈ (mcpListByRepoResponse db repo q).bodyOf.entries, v.raw_agent_report = none)
    ∧ (∀ (db : List JournalEntry) (repo branch : String) (q : RawQuery),
        q.include_raw_report ≠ some "true" →
        ∀ v ∈ (mcpListByBranchResponse db repo branch q).bodyOf.entries,
          v.raw_agent_report = none)
    ∧ (∀ (db1 db2 : List JournalEntry) (hash : String) (q : RawQuery),
        q.include_raw_report ≠ some "true" → db1.map clearRaw = db2.map clearRaw →
        mcpGetEntryResponse db1 hash q = mcpGetEntryResponse db2 hash q)
    ∧ (∀ (db1 db2 : List JournalEntry) (repo : String) (q : RawQuery),
        q.include_raw_report ≠ some "true" → db1.map clearRaw = db2.map clearRaw →
        mcpListByRepoResponse db1 repo q = mcpListByRepoResponse db2 repo q)
    ∧ (∀ (db1 db2 : List JournalEntry) (repo branch : String) (q : RawQuery),
        q.include_raw_report ≠ some "true" → db1.map clearRaw = db2.map clearRaw →
        mcpListByBranchResponse db1 repo branch q = mcpListByBranchResponse db2 repo branch q) := by
  refine ⟨?_, ?_, ?_, ?_, ?_, ?_⟩
  · intro db hash q h v hv
    simp only [mcpGetEntryResponse, parseQuery_raw_false q h] at hv
    cases hfind : getEntryByCommit db hash <;> rw [hfind] at hv
    · simp at hv
    · simp only [Response.json.injEq, Sum.inl.injEq] at hv
      rw [← hv.2]
      rfl
  · intro db repo q h v hv
    simp only [mcpListByRepoResponse, getEntriesByRepositoryPaginated,
      parseQuery_raw_false q h, Response.bodyOf, List.mem_map] at hv
    obtain ⟨e, _, rfl⟩ := hv
    rfl
  · intro db repo branch q h v hv
    simp only [mcpListByBranchResponse, getEntriesByBranchPaginated,
      parseQuery_raw_false q h, Response.bodyOf, List.mem_map] at hv
    obtain ⟨e, _, rfl⟩ := hv
    rfl
  · intro db1 db2 hash q h hdb
    rw [← mcpGetEntry_clearRaw db1 hash q h, hdb, mcpGetEntry_clearRaw db2 hash q h]
  · intro db1 db2 repo q h hdb
    rw [← mcpListByRepo_clearRaw db1 repo q h, hdb, mcpListByRepo_clearRaw db2 repo q h]
  · intro db1 db2 repo branch q h hdb
    rw [← mcpListByBranch_clearRaw db1 repo branch q h, hdb,
      mcpListByBranch_clearRaw db2 repo branch q h]

/-- C10 witness: two single-entry databases differing only in the stored
raw agent report yield the same list response under the default query. -/
theorem raw_report_noninterference_C10_witness :
    mcpListByRepoResponse [sampleEntryA] "r" ⟨none, none, none⟩ =
      mcpListByRepoResponse [sampleEntryAOtherRaw] "r" ⟨none, none, none⟩ :=
  raw_report_noninterference_C10.2.2.2.2.1 [sampleEntryA] [sampleEntryAOtherRaw] "r"
    ⟨none, none, none⟩ (by decide) (by decide)

end DevJournal
